import Mathlib

/-!
Verification of the NoteWall maintenance scripts.

The repository's scripts patch an Xcode project manifest (a text blob) with
regular-expression splices and manage hardcoded translation tables.  This
file embeds the content transformations of

  * `add_file_to_xcode.py`  (`add_file_to_xcode_project`),
  * `fix_xcode_resources.py` (`fix_xcode_project`, `remove_ids_from_files`),
  * `localize_app.py`       (the `TRANSLATIONS` tables, the per-phrase
    resolution loop of `main`, `read_existing_translations`)

over `List Char`, modelling the Python regex semantics (leftmost match,
non-greedy `.*?` gaps, greedy classes with backtracking) faithfully for the
patterns the scripts use, and proves or refutes the specification's claims
about them.  File I/O is modelled by returning the new blob (plus a success
flag); a failed run returns the disk content unchanged.
-/

set_option maxRecDepth 1000000

/-- The characters of a string. -/
def chars (s : String) : List Char := s.toList

/-- `content[:j] + entry + content[j:]` — the splice every insertion step of
`add_file_to_xcode_project` performs. -/
def spliceAt (j : Nat) (entry content : List Char) : List Char :=
  content.take j ++ entry ++ content.drop j

/-- Python's `str.split('\n')`: always at least one (possibly empty) line. -/
def splitLines : List Char → List (List Char)
  | [] => [[]]
  | a :: s =>
    if a = '\n' then [] :: splitLines s
    else
      match splitLines s with
      | [] => [[a]]
      | l :: ls => (a :: l) :: ls

/-- Python's `'\n'.join(...)`. -/
def joinLines : List (List Char) → List Char
  | [] => []
  | [l] => l
  | l :: ls => l ++ '\n' :: joinLines ls

/-- Non-greedy gap-then-literal: the semantics of `CLASS*?LIT` at the start of
`s` — the least `g` such that the first `g` characters all satisfy `c` and
`lit` occurs at offset `g`.  (The regex engine tries the shortest gap first
and extends it one class character at a time.) -/
def gapLit (c : Char → Bool) (lit : List Char) : List Char → Option Nat
  | [] => if lit.isEmpty then some 0 else none
  | a :: s =>
    if lit.isPrefixOf (a :: s) then some 0
    else if c a then (gapLit c lit s).map (· + 1)
    else none

/-- Leftmost-match search, the semantics of `re.search`: try the suffix
matcher `f` at offset 0, 1, …; `f`'s answer is measured relative to the
suffix it was applied to. -/
def findFirstPos {α : Type} (f : List Char → Option α) : List Char → Option (Nat × α)
  | [] => (f []).map (fun a => (0, a))
  | b :: s =>
    match f (b :: s) with
    | some a => some (0, a)
    | none => (findFirstPos f s).map (fun pa => (pa.1 + 1, pa.2))

/-- `[^}]` of the group and sources patterns. -/
def nonBrace (c : Char) : Bool := !(c = '\x7d')

/-- `.` under `re.DOTALL`. -/
def anyChar (_ : Char) : Bool := true

/-- `[A-Z0-9]` of the NoteWall-group pattern. -/
def tokChar (c : Char) : Bool := ('A' ≤ c && c ≤ 'Z') || ('0' ≤ c && c ≤ '9')

/-! ### add_file_to_xcode.py

`add_file_to_xcode_project(path, name)` reads the blob, generates two
24-character identifiers and runs four regex splices, aborting (return False,
nothing written) as soon as one pattern has no match.  The identifiers come
from `uuid.uuid4()`; they are parameters of the model. -/

def fileRefOpen : List Char := chars "/* Begin PBXFileReference section */"

def fileRefClose : List Char := chars "\t\t/* End PBXFileReference section */"

def buildFileOpen : List Char := chars "/* Begin PBXBuildFile section */"

def buildFileClose : List Char := chars "\t\t/* End PBXBuildFile section */"

def noteWallLit : List Char := chars " /* NoteWall */ = \x7b"

def childrenLit : List Char := chars "children = ("

def parenSemi : List Char := chars ");"

def sourcesLit : List Char := chars "isa = PBXSourcesBuildPhase;"

def filesLit : List Char := chars "files = ("

def sourcesClose : List Char := chars "\n\t\t\t);"

/-- Matcher for `(OPEN)(.*?)(CLOSE)` (DOTALL) at the start of `s`: `OPEN`
must match here, then the non-greedy gap runs to the first occurrence of
`CLOSE`.  Returns the offset of the start of `CLOSE`, i.e. `end(2)`, the
point where the new entry is spliced in.  (If the gap cannot reach a `CLOSE`
here, no longer gap can either, so no backtracking is needed.) -/
def sectionAt (openLit closeLit : List Char) (s : List Char) : Option Nat :=
  if openLit.isPrefixOf s then
    (gapLit anyChar closeLit (s.drop openLit.length)).map (fun g => openLit.length + g)
  else none

/-- Matcher for `([A-Z0-9]{24}) /\* NoteWall \*/ = \{[^}]*?children = \((.*?)\);`
at the start of `s`: exactly 24 token characters, the literal, a non-greedy
non-brace gap to `children = (`, a non-greedy gap to `);`.  Returns `end(2)`,
the offset of the `);`.  Failure of a later literal is monotone in the gap
length, so the non-greedy gaps need no backtracking. -/
def groupAt (s : List Char) : Option Nat :=
  if (s.take 24).length = 24 && (s.take 24).all tokChar && noteWallLit.isPrefixOf (s.drop 24) then
    match gapLit nonBrace childrenLit (s.drop (24 + noteWallLit.length)) with
    | none => none
    | some g1 =>
      (gapLit anyChar parenSemi
          (s.drop (24 + noteWallLit.length + g1 + childrenLit.length))).map
        (fun g2 => 24 + noteWallLit.length + g1 + childrenLit.length + g2)
  else none

/-- Matcher for `(isa = PBXSourcesBuildPhase;[^}]*?files = \()(.*?)(\n\t\t\t\);)`
at the start of `s`.  Returns `end(2)`, the offset of the `\n\t\t\t);`. -/
def sourcesAt (s : List Char) : Option Nat :=
  if sourcesLit.isPrefixOf s then
    match gapLit nonBrace filesLit (s.drop sourcesLit.length) with
    | none => none
    | some g1 =>
      (gapLit anyChar sourcesClose
          (s.drop (sourcesLit.length + g1 + filesLit.length))).map
        (fun g2 => sourcesLit.length + g1 + filesLit.length + g2)
  else none

/-- The absolute insertion position a matcher yields under `re.search`:
leftmost matching offset plus the relative `end(2)`. -/
def findInsert (f : List Char → Option Nat) (content : List Char) : Option Nat :=
  (findFirstPos f content).map (fun pa => pa.1 + pa.2)

/-- The PBXFileReference entry line of `add_file_to_xcode.py` (step 1). -/
def fileRefEntry (fid name : List Char) : List Char :=
  chars "\t\t" ++ fid ++ chars " /* " ++ name ++
    chars " */ = \x7bisa = PBXFileReference; lastKnownFileType = sourcecode.swift; path = " ++
    name ++ chars "; sourceTree = \"<group>\"; \x7d;\n"

/-- The PBXBuildFile entry line (step 2). -/
def buildFileEntry (bid fid name : List Char) : List Char :=
  chars "\t\t" ++ bid ++ chars " /* " ++ name ++
    chars " in Sources */ = \x7bisa = PBXBuildFile; fileRef = " ++ fid ++
    chars " /* " ++ name ++ chars " */; \x7d;\n"

/-- The group-children entry (step 3). -/
def childrenEntry (fid name : List Char) : List Char :=
  chars "\n\t\t\t\t" ++ fid ++ chars " /* " ++ name ++ chars " */,"

/-- The sources-build-phase entry (step 4). -/
def sourcesEntry (bid name : List Char) : List Char :=
  chars "\n\t\t\t\t" ++ bid ++ chars " /* " ++ name ++ chars " in Sources */,"

/-- Step 1: splice the file-reference entry at `end(2)` of the
PBXFileReference section pattern; `none` = "Could not find PBXFileReference
section". -/
def step1 (fid name content : List Char) : Option (List Char) :=
  (findInsert (sectionAt fileRefOpen fileRefClose) content).map
    (fun j => spliceAt j (fileRefEntry fid name) content)

/-- Step 2: splice the build-file entry into the PBXBuildFile section. -/
def step2 (bid fid name content : List Char) : Option (List Char) :=
  (findInsert (sectionAt buildFileOpen buildFileClose) content).map
    (fun j => spliceAt j (buildFileEntry bid fid name) content)

/-- Step 3: splice the child entry at the end of the NoteWall group's
children list (the code rebuilds `content[:start(2)] + group(2) + entry +
content[end(2):]`, which is the splice at `end(2)`). -/
def step3 (fid name content : List Char) : Option (List Char) :=
  (findInsert groupAt content).map
    (fun j => spliceAt j (childrenEntry fid name) content)

/-- Step 4: splice the sources entry at `end(2)` of the sources-build-phase
pattern. -/
def step4 (bid name content : List Char) : Option (List Char) :=
  (findInsert sourcesAt content).map
    (fun j => spliceAt j (sourcesEntry bid name) content)

/-- The content transformation of `add_file_to_xcode_project`: the four
splices in order, each on the blob mutated so far; `none` as soon as one
pattern fails to match. -/
def add_file_to_xcode_project (fid bid name content : List Char) : Option (List Char) :=
  (step1 fid name content).bind fun c1 =>
    (step2 bid fid name c1).bind fun c2 =>
      (step3 fid name c2).bind fun c3 =>
        step4 bid name c3

/-- The whole run including the final write-back: on pattern failure nothing
is written (the function returns before the `open(..., 'w')`); on success the
file is overwritten (`writeOk = false` models a filesystem error during the
write, caught and reported as failure). -/
def runAddFile (writeOk : Bool) (fid bid name disk : List Char) : Bool × List Char :=
  match add_file_to_xcode_project fid bid name disk with
  | none => (false, disk)
  | some c => if writeOk then (true, c) else (false, disk)

/-- `sys.exit(0 if success else 1)` of `add_file_to_xcode.py.__main__`. -/
def addFileExitCode (writeOk : Bool) (fid bid name disk : List Char) : Nat :=
  if (runAddFile writeOk fid bid name disk).1 then 0 else 1
def fid0 : List Char := chars "FREF00000000000000000AAA"

def bid0 : List Char := chars "BLDF00000000000000000BBB"

def name0 : List Char := chars "Foo.swift"

def blob0 : List Char :=
  chars "/* Begin PBXFileReference section */\n\t\t/* End PBXFileReference section */\n/* Begin PBXBuildFile section */\n\t\t/* End PBXBuildFile section */\nAAAAAAAAAAAAAAAAAAAAAAAA /* NoteWall */ = \x7bchildren = ();\nisa = PBXSourcesBuildPhase;files = (\n\t\t\t);\n"

def addOut0expected : List Char :=
  chars "/* Begin PBXFileReference section */\n\t\tFREF00000000000000000AAA /* Foo.swift */ = \x7bisa = PBXFileReference; lastKnownFileType = sourcecode.swift; path = Foo.swift; sourceTree = \"<group>\"; \x7d;\n\t\t/* End PBXFileReference section */\n/* Begin PBXBuildFile section */\n\t\tBLDF00000000000000000BBB /* Foo.swift in Sources */ = \x7bisa = PBXBuildFile; fileRef = FREF00000000000000000AAA /* Foo.swift */; \x7d;\n\t\t/* End PBXBuildFile section */\nAAAAAAAAAAAAAAAAAAAAAAAA /* NoteWall */ = \x7bchildren = (\n\t\t\t\tFREF00000000000000000AAA /* Foo.swift */,);\nisa = PBXSourcesBuildPhase;files = (\n\t\t\t\tBLDF00000000000000000BBB /* Foo.swift in Sources */,\n\t\t\t);\n"

def blob4 : List Char :=
  chars "/* Begin PBXFileReference section */\n\t\t/* End PBXFileReference section */\n/* Begin PBXBuildFile section */\n\t\t/* End PBXBuildFile section */\n\t\tAAAAAAAAAAAAAAAAAAAAAAAA /* NoteWall */ = \x7b\n\t\t\tisa = PBXGroup;\n\t\t\tchildren = (\n\t\t\t);\n\t\t\x7d;\n\t\tisa = PBXSourcesBuildPhase;\n\t\t\tfiles = (\n\t\t\t);\n"

def addOut4expected : List Char :=
  chars "/* Begin PBXFileReference section */\n\t\tFREF00000000000000000AAA /* Foo.swift */ = \x7bisa = PBXFileReference; lastKnownFileType = sourcecode.swift; path = Foo.swift; sourceTree = \"<group>\"; \x7d;\n\t\t/* End PBXFileReference section */\n/* Begin PBXBuildFile section */\n\t\tBLDF00000000000000000BBB /* Foo.swift in Sources */ = \x7bisa = PBXBuildFile; fileRef = FREF00000000000000000AAA /* Foo.swift */; \x7d;\n\t\t/* End PBXBuildFile section */\n\t\tAAAAAAAAAAAAAAAAAAAAAAAA /* NoteWall */ = \x7b\n\t\t\tisa = PBXGroup;\n\t\t\tchildren = (\n\t\t\t\n\t\t\t\tFREF00000000000000000AAA /* Foo.swift */,);\n\t\t\x7d;\n\t\tisa = PBXSourcesBuildPhase;\n\t\t\tfiles = (\n\t\t\t\tBLDF00000000000000000BBB /* Foo.swift in Sources */,\n\t\t\t);\n"

def blob1 : List Char :=
  chars "/* Begin PBXFileReference section */\n\t\t/* End PBXFileReference section */\n/* Begin PBXBuildFile section */\n\t\t/* End PBXBuildFile section */\nisa = PBXSourcesBuildPhase;files = (\nAAAAAAAAAAAAAAAAAAAAAAAA /* NoteWall */ = \x7bchildren = (\n\t\t\t);\nX\n\t\t\t);\n"

def out1swapped : List Char :=
  chars "/* Begin PBXFileReference section */\n\t\tFREF00000000000000000AAA /* Foo.swift */ = \x7bisa = PBXFileReference; lastKnownFileType = sourcecode.swift; path = Foo.swift; sourceTree = \"<group>\"; \x7d;\n\t\t/* End PBXFileReference section */\n/* Begin PBXBuildFile section */\n\t\tBLDF00000000000000000BBB /* Foo.swift in Sources */ = \x7bisa = PBXBuildFile; fileRef = FREF00000000000000000AAA /* Foo.swift */; \x7d;\n\t\t/* End PBXBuildFile section */\nisa = PBXSourcesBuildPhase;files = (\nAAAAAAAAAAAAAAAAAAAAAAAA /* NoteWall */ = \x7bchildren = (\n\t\t\t\tBLDF00000000000000000BBB /* Foo.swift in Sources */,\n\t\t\t\n\t\t\t\tFREF00000000000000000AAA /* Foo.swift */,);\nX\n\t\t\t);\n"

def blob3 : List Char :=
  chars "/* Begin PBXResourcesBuildPhase section */ files = (\nXYZ\nAAA /* arrow.png in Resources */,\n/* Contents.json in Resources */ = \x7bisa = PBXBuildFile;\nBBB XYZ /* foo in Resources */,\n);/* End PBXResourcesBuildPhase section */"

def fixOut3expected : List Char :=
  chars "/* Begin PBXResourcesBuildPhase section */ files = (\nXYZ\n/* Contents.json in Resources */ = \x7bisa = PBXBuildFile;\nBBB XYZ /* foo in Resources */,\n);/* End PBXResourcesBuildPhase section */"

/-- Step order 1,2,4,3 (sources before group): used to compare insertion
orders for the order-independence claim. -/
def add_file_swapped34 (fid bid name content : List Char) : Option (List Char) :=
  (step1 fid name content).bind fun c1 =>
    (step2 bid fid name c1).bind fun c2 =>
      (step4 bid name c2).bind fun c3 =>
        step3 fid name c3

/-! ### fix_xcode_resources.py

`fix_xcode_project(path)` harvests identifiers from the PBXBuildFile pattern
and 14 asset-file patterns (`re.finditer`), then rewrites every match of the
resources-section pattern, dropping the files-list lines that contain a
harvested identifier together with `in Resources`, and writes back iff the
blob changed. -/

/-- `\w` (the manifests are ASCII). -/
def wordChar (c : Char) : Bool :=
  ('a' ≤ c && c ≤ 'z') || ('A' ≤ c && c ≤ 'Z') || ('0' ≤ c && c ≤ '9') || c = '_'

/-- `\s` (ASCII). -/
def spaceChar (c : Char) : Bool :=
  c = ' ' || c = '\t' || c = '\n' || c = '\r' || c = '\x0b' || c = '\x0c'

/-- `\S`. -/
def nonSpaceChar (c : Char) : Bool := !spaceChar c

/-- `.` without DOTALL (the finditer patterns have no flag). -/
def dotChar (c : Char) : Bool := !(c = '\n')

/-- `\d`. -/
def digitChar (c : Char) : Bool := '0' ≤ c && c ≤ '9'

/-- One element of a finditer pattern: a literal, a single class character
(`\d`), a greedy one-or-more class run (`\w+`, `\s+`, `\S+`), or a greedy
zero-or-more class run (`.*`). -/
inductive RElem where
  | lit : List Char → RElem
  | one : (Char → Bool) → RElem
  | plus : (Char → Bool) → RElem
  | star : (Char → Bool) → RElem

/-- Greedy backtracking for a class run: try gap length k, k-1, …, lo; every
length up to the takeWhile run consists of class characters, and `next`
matches the rest of the pattern after the gap. -/
def tryLens (next : List Char → Option Nat) (s : List Char) (lo : Nat) : Nat → Option Nat
  | 0 => if lo = 0 then next s else none
  | k + 1 =>
    if lo ≤ k + 1 then
      match next (s.drop (k + 1)) with
      | some r => some (k + 1 + r)
      | none => tryLens next s lo k
    else none

/-- Matcher for a regex-element sequence at the start of `s` with Python's
greedy backtracking; returns the number of characters consumed. -/
def rMatch : List RElem → List Char → Option Nat
  | [], _ => some 0
  | .lit l :: es, s =>
    if l.isPrefixOf s then (rMatch es (s.drop l.length)).map (· + l.length) else none
  | .one c :: es, s =>
    match s with
    | [] => none
    | a :: s1 => if c a then (rMatch es s1).map (· + 1) else none
  | .plus c :: es, s => tryLens (fun t => rMatch es t) s 1 ((s.takeWhile c).length)
  | .star c :: es, s => tryLens (fun t => rMatch es t) s 0 ((s.takeWhile c).length)

/-- The leading `(\w+)` capture group shared by all fifteen patterns: greedy,
longest word run first; returns (group length, total match length). -/
def idPatTry (es : List RElem) (s : List Char) : Nat → Option (Nat × Nat)
  | 0 => none
  | k + 1 =>
    match rMatch es (s.drop (k + 1)) with
    | some r => some (k + 1, k + 1 + r)
    | none => idPatTry es s k

/-- Match `(\w+)‹es›` at the start of `s`. -/
def idPatAt (es : List RElem) (s : List Char) : Option (Nat × Nat) :=
  idPatTry es s ((s.takeWhile wordChar).length)

/-- `re.finditer` for `(\w+)‹es›`: leftmost match, collect group 1, resume at
the end of the match.  Matches are nonempty (the group is), so length+1 fuel
never runs out. -/
def finditerIds (es : List RElem) : Nat → List Char → List (List Char)
  | 0, _ => []
  | _ + 1, [] => []
  | fuel + 1, a :: s1 =>
    match idPatAt es (a :: s1) with
    | some kt => (a :: s1).take kt.1 :: finditerIds es fuel ((a :: s1).drop kt.2)
    | none => finditerIds es fuel s1

/-- `\s+`. -/
def spl : RElem := .plus spaceChar

/-- `(\w+)\s+/\*\s+Contents\.json in Resources\s+\*/\s+=\s+\{isa\s+=\s+PBXBuildFile;`
after its capture group. -/
def buildfilePat : List RElem :=
  [spl, .lit (chars "/*"), spl, .lit (chars "Contents.json in Resources"), spl,
   .lit (chars "*/"), spl, .lit (chars "="), spl, .lit (chars "\x7bisa"), spl,
   .lit (chars "="), spl, .lit (chars "PBXBuildFile;")]

/-- `(\w+)\s+/\*\s+‹name› in Resources\s+\*/` after its capture group. -/
def assetPat (nameElems : List RElem) : List RElem :=
  [spl, .lit (chars "/*"), spl] ++ nameElems ++ [spl, .lit (chars "*/")]

/-- The 14 `asset_file_patterns`, in source order. -/
def asset_file_patterns : List (List RElem) :=
  [assetPat [.lit (chars "Icon-App-"), .plus nonSpaceChar, .lit (chars ".png in Resources")],
   assetPat [.lit (chars "mockup"), .star dotChar, .lit (chars ".png in Resources")],
   assetPat [.lit (chars "experiment-icon.png in Resources")],
   assetPat [.lit (chars "FAITHWALL.png in Resources")],
   assetPat [.lit (chars "skipForward3s.png in Resources")],
   assetPat [.lit (chars "skipBackward3s.png in Resources")],
   assetPat [.lit (chars "safari-logo"), .star dotChar, .lit (chars ".png in Resources")],
   assetPat [.lit (chars "shortcuts-app-logo.png in Resources")],
   assetPat [.lit (chars "stuck-placeholder.png in Resources")],
   assetPat [.lit (chars "notificationes.png in Resources")],
   assetPat [.lit (chars "image-"), .one digitChar, .lit (chars "-review.png in Resources")],
   assetPat [.lit (chars "logo-icon.png in Resources")],
   assetPat [.lit (chars "instruction_wallpaper.png in Resources")],
   assetPat [.lit (chars "arrow.png in Resources")]]

/-- `ids_to_remove`: harvest of all fifteen patterns over the whole blob.
Python accumulates into a set, but only membership is ever used, so a list
with possible duplicates is an equivalent model. -/
def idsToRemove (content : List Char) : List (List Char) :=
  finditerIds buildfilePat (content.length + 1) content ++
    asset_file_patterns.foldr
      (fun p acc => finditerIds p (content.length + 1) content ++ acc) []

def inResourcesLit : List Char := chars "in Resources"

/-- Python's substring test (`needle in line` on strings). -/
def isSubstring (pat : List Char) : List Char → Bool
  | [] => pat.isEmpty
  | b :: s => pat.isPrefixOf (b :: s) || isSubstring pat s

/-- `if id_to_remove in line and 'in Resources' in line` for some harvested
id (Python `in` on strings is the substring test). -/
def shouldRemove (ids : List (List Char)) (line : List Char) : Bool :=
  ids.any (fun i => isSubstring i line && isSubstring inResourcesLit line)

/-- The body of `remove_ids_from_files` applied to group 3: split the
files-list text on newlines, keep the unmarked lines, rejoin. -/
def remove_ids_from_files (ids : List (List Char)) (filesContent : List Char) : List Char :=
  joinLines ((splitLines filesContent).filter (fun l => !shouldRemove ids l))

def resBegin : List Char := chars "/* Begin PBXResourcesBuildPhase section */"

def resEnd : List Char := chars "/* End PBXResourcesBuildPhase section */"

/-- Matcher for
`(/\* Begin PBXResourcesBuildPhase section \*/.*?)(files = \()(.*?)(\);)(.*?/\* End PBXResourcesBuildPhase section \*/)`
(DOTALL) at the start of `s`: returns (start of group 3, end of group 3, end
of the whole match), relative to `s`.  All gaps are non-greedy `.*?`, so each
runs to the first occurrence of the following literal and no backtracking is
needed (a later failure is monotone in the gap lengths). -/
def resourcesAt (s : List Char) : Option (Nat × Nat × Nat) :=
  if resBegin.isPrefixOf s then
    match gapLit anyChar filesLit (s.drop resBegin.length) with
    | none => none
    | some a =>
      match gapLit anyChar parenSemi (s.drop (resBegin.length + a + filesLit.length)) with
      | none => none
      | some b =>
        (gapLit anyChar resEnd
            (s.drop (resBegin.length + a + filesLit.length + b + parenSemi.length))).map
          (fun c0 =>
            (resBegin.length + a + filesLit.length,
             resBegin.length + a + filesLit.length + b,
             resBegin.length + a + filesLit.length + b + parenSemi.length + c0 + resEnd.length))
  else none

/-- `re.sub(resources_section_pattern, remove_ids_from_files, content)`:
leftmost match, emit groups 1–2 verbatim, group 3 line-filtered, groups 4–5
verbatim, continue after the match end.  Matches are nonempty, so length+1
fuel never runs out. -/
def fixSub (ids : List (List Char)) : Nat → List Char → List Char
  | 0, s => s
  | fuel + 1, s =>
    match findFirstPos resourcesAt s with
    | none => s
    | some (p, g3s, g3e, mEnd) =>
      s.take p ++ ((s.drop p).take g3s) ++
        remove_ids_from_files ids (((s.drop p).drop g3s).take (g3e - g3s)) ++
        (((s.drop p).drop g3e).take (mEnd - g3e)) ++
        fixSub ids fuel ((s.drop p).drop mEnd)

/-- The content transformation of `fix_xcode_project`: harvest once from the
original blob, then substitute. -/
def fixBlob (content : List Char) : List Char :=
  fixSub (idsToRemove content) (content.length + 1) content

/-- `fix_xcode_project` with its write-back: unchanged content is reported as
"no changes" (False) and nothing is written; changed content is written and
reported as success (True). -/
def fix_xcode_project (content : List Char) : Bool × List Char :=
  if fixBlob content = content then (false, content) else (true, fixBlob content)

/-- `__main__` of `fix_xcode_resources.py`: `sys.exit(1)` when the run
reports no changes; the success path falls off the end of the script (exit
code 0).  A failing write raises an uncaught exception and the interpreter
exits with code 1; `writeOk = false` models that. -/
def fixExitCode (writeOk : Bool) (content : List Char) : Nat :=
  if (fix_xcode_project content).1 && writeOk then 0 else 1

def out1canonical : List Char :=
  chars "/* Begin PBXFileReference section */\n\t\tFREF00000000000000000AAA /* Foo.swift */ = \x7bisa = PBXFileReference; lastKnownFileType = sourcecode.swift; path = Foo.swift; sourceTree = \"<group>\"; \x7d;\n\t\t/* End PBXFileReference section */\n/* Begin PBXBuildFile section */\n\t\tBLDF00000000000000000BBB /* Foo.swift in Sources */ = \x7bisa = PBXBuildFile; fileRef = FREF00000000000000000AAA /* Foo.swift */; \x7d;\n\t\t/* End PBXBuildFile section */\nisa = PBXSourcesBuildPhase;files = (\nAAAAAAAAAAAAAAAAAAAAAAAA /* NoteWall */ = \x7bchildren = (\n\t\t\t\n\t\t\t\tFREF00000000000000000AAA /* Foo.swift */,);\nX\n\t\t\t\tBLDF00000000000000000BBB /* Foo.swift in Sources */,\n\t\t\t);\n"

/-! ### localize_app.py

`main` builds, for each non-English language, a complete translation table:
for every key of the English table it takes (1) the translation already
persisted in that language's `Localizable.strings` (read by
`read_existing_translations`), else (2) the hardcoded `TRANSLATIONS` entry,
else (3) the English phrase itself, printing a warning. -/

/-- Python dict lookup, modelled on the association list the dict was built
from (the `TRANSLATIONS` literals have no duplicate keys, so first match is
the dict's entry; `read_existing_translations` upserts, see `dictOf`). -/
def lookupA : List (String × String) → String → Option String
  | [], _ => none
  | kv :: t, key => if kv.1 = key then some kv.2 else lookupA t key

/-- `d[k] = v` on an association list that carries each key once. -/
def upsert : List (String × String) → String → String → List (String × String)
  | [], k, v => [(k, v)]
  | kv :: t, k, v => if kv.1 = k then (k, v) :: t else kv :: upsert t k v

/-- The dict built by assigning the pairs in order (a later duplicate key
overwrites the earlier value, as in Python). -/
def dictOf (pairs : List (String × String)) : List (String × String) :=
  pairs.foldl (fun d kv => upsert d kv.1 kv.2) []

/-- `[^"]`. -/
def nonQuote (c : Char) : Bool := !(c = '"')

/-- Match `"([^\"]+)"\s*=\s*"([^\"]+)";` at the start of `s`: returns (key,
value, total length).  Each greedy run (`[^"]+`, `\s*`) is followed by a
character outside its class, so the greedy matches are the maximal runs and
no backtracking arises. -/
def stringsEntryAt : List Char → Option (List Char × List Char × Nat)
  | '"' :: s1 =>
    let k := s1.takeWhile nonQuote
    if k.isEmpty then none
    else
      match s1.drop k.length with
      | '"' :: s2 =>
        let w1 := s2.takeWhile spaceChar
        (match s2.drop w1.length with
         | '=' :: s3 =>
           let w2 := s3.takeWhile spaceChar
           (match s3.drop w2.length with
            | '"' :: s4 =>
              let v := s4.takeWhile nonQuote
              if v.isEmpty then none
              else
                (match s4.drop v.length with
                 | '"' :: ';' :: _ =>
                   some (k, v, k.length + w1.length + w2.length + v.length + 6)
                 | _ => none)
            | _ => none)
         | _ => none)
      | _ => none
  | _ => none

/-- `re.findall` of the entry pattern: leftmost matches, resuming after each
(matches are nonempty, so length+1 fuel never runs out). -/
def findallStrings : Nat → List Char → List (List Char × List Char)
  | 0, _ => []
  | _ + 1, [] => []
  | fuel + 1, a :: s1 =>
    match stringsEntryAt (a :: s1) with
    | some kvt => (kvt.1, kvt.2.1) :: findallStrings fuel ((a :: s1).drop kvt.2.2)
    | none => findallStrings fuel s1

/-- `read_existing_translations`: parse the persisted `Localizable.strings`
content and build the dict pair by pair. -/
def read_existing_translations (content : String) : List (String × String) :=
  dictOf ((findallStrings (content.toList.length + 1) content.toList).map
    (fun kv => (String.mk kv.1, String.mk kv.2)))

/-- One iteration of the translation loop of `main` (localize_app.py lines
693–703): the persisted translation, else the hardcoded table, else the
English phrase with a warning.  Returns the chosen string and whether the
warning was printed; there is no failing outcome. -/
def resolveOne (langExisting table : List (String × String)) (english : String) :
    String × Bool :=
  match lookupA langExisting english with
  | some v => (v, false)
  | none =>
    match lookupA table english with
    | some v => (v, false)
    | none => (english, true)

/-- `complete_translations[lang]`: one entry per key of the English table, in
order, each resolved by `resolveOne`. -/
def buildLangTable (enKeys : List String) (langExisting table : List (String × String)) :
    List (String × String) :=
  enKeys.map (fun k => (k, (resolveOne langExisting table k).1))

/-- The 'de' entry of the TRANSLATIONS dictionary literal of localize_app.py,
transcribed verbatim in source order (the literal has no duplicate keys). -/
def TRANSLATIONS_de : List (String × String) := [
  ("Continue", "Weiter"),
  ("Cancel", "Abbrechen"),
  ("Delete", "Löschen"),
  ("Done", "Fertig"),
  ("Close", "Schließen"),
  ("OK", "OK"),
  ("Skip", "Überspringen"),
  ("Next", "Weiter"),
  ("Yes", "Ja"),
  ("No", "Nein"),
  ("Send", "Senden"),
  ("Apply", "Anwenden"),
  ("Save", "Speichern"),
  ("Loading...", "Lädt..."),
  ("Sending...", "Wird gesendet..."),
  ("Updating…", "Aktualisiert..."),
  ("Generating...", "Generiert..."),
  ("Saving…", "Speichert..."),
  ("Preview", "Vorschau"),
  ("Install", "Installieren"),
  ("Error", "Fehler"),
  ("Success", "Erfolg"),
  ("Warning", "Warnung"),
  ("Info", "Info"),
  ("Issues found:", "Gefundene Probleme:"),
  ("Contact Support", "Support kontaktieren"),
  ("Start Auto-Fix", "Auto-Fix starten"),
  ("Delete Previous Wallpaper?", "Vorheriges Hintergrundbild löschen?"),
  ("To avoid filling your Photos library, NoteWall can delete the previous wallpaper. If you continue, iOS will ask for permission to delete the photo.", "Um deine Fotomediathek nicht zu füllen, kann NoteWall das vorherige Hintergrundbild löschen. Wenn du fortsetzt, wird iOS um Erlaubnis zum Löschen des Fotos bitten."),
  ("Delete Note?", "Notiz löschen?"),
  ("Are you sure you want to delete this note? This action cannot be undone.", "Bist du sicher, dass du diese Notiz löschen möchtest? Diese Aktion kann nicht rückgängig gemacht werden."),
  ("Delete Selected Notes?", "Ausgewählte Notizen löschen?"),
  ("Are you sure you want to delete the selected notes? This action cannot be undone.", "Bist du sicher, dass du die ausgewählten Notizen löschen möchtest? Diese Aktion kann nicht rückgängig gemacht werden."),
  ("Wallpaper Full", "Hintergrundbild voll"),
  ("Your wallpaper has reached its maximum capacity. Complete or delete existing notes to add new ones.", "Dein Hintergrundbild hat seine maximale Kapazität erreicht. Erledige oder lösche bestehende Notizen, um neue hinzuzufügen."),
  ("No notes yet", "Noch keine Notizen"),
  ("Add a note below to get started", "Füge unten eine Notiz hinzu, um zu beginnen"),
  ("Delete (%lld)", "Löschen (%lld)"),
  ("Wallpaper Not Showing?", "Hintergrundbild wird nicht angezeigt?"),
  ("We can help you fix it in just a few steps.", "Wir können dir helfen, es in wenigen Schritten zu beheben."),
  ("Get Help", "Hilfe erhalten"),
  ("Friendly Reminder", "Freundliche Erinnerung"),
  ("Your free trial subscription will be ending soon.", "Dein kostenloses Testabonnement endet bald."),
  ("Great! You added your first note", "Großartig! Du hast deine erste Notiz hinzugefügt"),
  ("Add more notes using the + button, then tap \"Update Wallpaper\" to apply them to your lock screen.", "Füge weitere Notizen mit der +-Schaltfläche hinzu und tippe dann auf \"Hintergrundbild aktualisieren\", um sie auf deinen Sperrbildschirm anzuwenden."),
  ("Deleting notes...", "Notizen werden gelöscht..."),
  ("Notes Deleted!", "Notizen gelöscht!"),
  ("sec", "Sek."),
  ("Device Category:", "Gerätekategorie:"),
  ("Screen:", "Bildschirm:"),
  ("Scale Factor:", "Skalierungsfaktor:"),
  ("Is Compact:", "Ist kompakt:"),
  ("Max Video Height:", "Max. Videohöhe:"),
  ("Before You Go...", "Bevor du gehst..."),
  ("Hey! I built NoteWall myself and I'm genuinely trying to make it better every day.", "Hey! Ich habe NoteWall selbst entwickelt und versuche wirklich, es jeden Tag besser zu machen."),
  ("If something didn't work or felt off, I really want to know. Your feedback directly shapes what I fix next.", "Wenn etwas nicht funktioniert hat oder sich merkwürdig anfühlte, möchte ich es wirklich wissen. Dein Feedback bestimmt direkt, was ich als nächstes behebe."),
  ("What could be better?", "Was könnte besser sein?"),
  ("Tell me what went wrong...", "Sag mir, was schief gelaufen ist..."),
  ("Send Feedback", "Feedback senden"),
  ("Maybe Later", "Vielleicht später"),
  ("Thanks for Your Feedback!", "Danke für dein Feedback!"),
  ("I'll read this personally and work on making NoteWall better.", "Ich werde das persönlich lesen und daran arbeiten, NoteWall besser zu machen."),
  ("Privacy Policy", "Datenschutzrichtlinie"),
  ("Terms of Service", "Nutzungsbedingungen"),
  ("End User License Agreement", "Endbenutzer-Lizenzvereinbarung"),
  ("Unlock Full Access", "Vollen Zugriff freischalten"),
  ("Get Premium", "Premium erhalten"),
  ("Restore Purchase", "Kauf wiederherstellen"),
  ("Already subscribed?", "Schon abonniert?"),
  ("Unlimited wallpaper updates", "Unbegrenzte Hintergrundbild-Updates"),
  ("Custom fonts & styles", "Benutzerdefinierte Schriftarten & Stile"),
  ("Priority support", "Vorrangiger Support"),
  ("No ads, ever", "Keine Werbung, niemals"),
  ("Start Free Trial", "Kostenlose Testversion starten"),
  ("Subscribe", "Abonnieren"),
  ("Lifetime Access", "Lebenslanger Zugriff"),
  ("Monthly", "Monatlich"),
  ("Yearly", "Jährlich"),
  ("Settings", "Einstellungen"),
  ("Wallpaper Settings", "Hintergrundbild-Einstellungen"),
  ("Text Style", "Textstil"),
  ("Help & Support", "Hilfe & Support"),
  ("About", "Über"),
  ("Version", "Version"),
  ("Build", "Build"),
  ("Share NoteWall", "NoteWall teilen"),
  ("Rate Us", "Bewerte uns"),
  ("Send us Feedback", "Feedback senden"),
  ("Welcome to NoteWall", "Willkommen bei NoteWall"),
  ("Never forget what matters", "Vergiss nie, was wichtig ist"),
  ("Your notes, always visible", "Deine Notizen, immer sichtbar"),
  ("Let's get started", "Lass uns beginnen"),
  ("What's your name?", "Wie heißt du?"),
  ("Enter your name", "Gib deinen Namen ein"),
  ("Skip this step", "Diesen Schritt überspringen"),
  ("Grant Permissions First", "Erteile zuerst die Berechtigungen"),
  ("Permissions granted!", "Berechtigungen erteilt!"),
  ("Allow ALL Permissions", "ALLE Berechtigungen erlauben"),
  ("Permission popups appear here", "Berechtigungs-Popups erscheinen hier"),
  ("click ALLOW for all", "ERLAUBEN für alle anklicken"),
  ("(this is how it should look)", "(so sollte es aussehen)"),
  ("Start Using NoteWall", "NoteWall verwenden"),
  ("We Owe You an Apology", "Wir schulden dir eine Entschuldigung"),
  ("You might have experienced a bug that prevented your wallpaper from updating. That's on us — let's get you back on track.", "Möglicherweise hast du einen Fehler erlebt, der die Aktualisierung deines Hintergrundbilds verhindert hat. Das liegt an uns – lass uns das in Ordnung bringen."),
  ("What Happened?", "Was ist passiert?"),
  ("The Issue", "Das Problem"),
  ("A technical bug prevented wallpapers from updating correctly for some users.", "Ein technischer Fehler verhinderte die korrekte Aktualisierung von Hintergrundbildern für einige Benutzer."),
  ("Your Notes Are Safe", "Deine Notizen sind sicher"),
  ("All your notes and data are perfectly intact.", "Alle deine Notizen und Daten sind vollkommen intakt."),
  ("The Fix", "Die Lösung"),
  ("We've completely rebuilt the system. It now works faster and more reliably.", "Wir haben das System komplett neu aufgebaut. Es funktioniert jetzt schneller und zuverlässiger."),
  ("What You Need to Do", "Was du tun musst"),
  ("Quick 1-minute setup to install the new system.", "Schnelle 1-Minuten-Einrichtung zur Installation des neuen Systems."),
  ("Let's Fix This Together", "Lass uns das gemeinsam beheben"),
  ("I'll Handle It Later", "Ich kümmere mich später darum"),
  ("What's New", "Was ist neu"),
  ("New in this version", "Neu in dieser Version"),
  ("Improvements and bug fixes", "Verbesserungen und Fehlerbehebungen"),
  ("Got It", "Verstanden"),
  ("Troubleshooting", "Fehlerbehebung"),
  ("Common Issues", "Häufige Probleme"),
  ("Wallpaper not updating?", "Hintergrundbild wird nicht aktualisiert?"),
  ("Try these steps:", "Versuche diese Schritte:"),
  ("Restart your device", "Starte dein Gerät neu"),
  ("Reinstall the shortcut", "Installiere die Verknüpfung neu"),
  ("Check permissions", "Überprüfe die Berechtigungen"),
  ("Still having issues?", "Hast du immer noch Probleme?"),
  ("Contact our support team", "Kontaktiere unser Support-Team"),
  ("Why are you canceling?", "Warum kündigst du?"),
  ("Your feedback helps us improve", "Dein Feedback hilft uns bei der Verbesserung"),
  ("Too expensive", "Zu teuer"),
  ("Not using it enough", "Nutze es nicht genug"),
  ("Technical issues", "Technische Probleme"),
  ("Missing features", "Fehlende Funktionen"),
  ("Other reason", "Anderer Grund"),
  ("Tell us more (optional)", "Erzähl uns mehr (optional)"),
  ("Submit Feedback", "Feedback absenden"),
  ("Thank you for your feedback", "Danke für dein Feedback")
]

/-- The 'es' entry of the TRANSLATIONS dictionary literal of localize_app.py,
transcribed verbatim in source order (the literal has no duplicate keys). -/
def TRANSLATIONS_es : List (String × String) := [
  ("Continue", "Continuar"),
  ("Cancel", "Cancelar"),
  ("Delete", "Eliminar"),
  ("Done", "Listo"),
  ("Close", "Cerrar"),
  ("OK", "OK"),
  ("Skip", "Omitir"),
  ("Next", "Siguiente"),
  ("Yes", "Sí"),
  ("No", "No"),
  ("Send", "Enviar"),
  ("Apply", "Aplicar"),
  ("Save", "Guardar"),
  ("Loading...", "Cargando..."),
  ("Sending...", "Enviando..."),
  ("Updating…", "Actualizando..."),
  ("Generating...", "Generando..."),
  ("Saving…", "Guardando..."),
  ("Preview", "Vista previa"),
  ("Install", "Instalar"),
  ("Error", "Error"),
  ("Success", "Éxito"),
  ("Warning", "Advertencia"),
  ("Info", "Info"),
  ("Issues found:", "Problemas encontrados:"),
  ("Contact Support", "Contactar soporte"),
  ("Start Auto-Fix", "Iniciar corrección automática"),
  ("Delete Previous Wallpaper?", "¿Eliminar fondo anterior?"),
  ("To avoid filling your Photos library, NoteWall can delete the previous wallpaper. If you continue, iOS will ask for permission to delete the photo.", "Para evitar llenar tu biblioteca de Fotos, NoteWall puede eliminar el fondo anterior. Si continúas, iOS pedirá permiso para eliminar la foto."),
  ("Delete Note?", "¿Eliminar nota?"),
  ("Are you sure you want to delete this note? This action cannot be undone.", "¿Estás seguro de que quieres eliminar esta nota? Esta acción no se puede deshacer."),
  ("Delete Selected Notes?", "¿Eliminar notas seleccionadas?"),
  ("Are you sure you want to delete the selected notes? This action cannot be undone.", "¿Estás seguro de que quieres eliminar las notas seleccionadas? Esta acción no se puede deshacer."),
  ("Wallpaper Full", "Fondo lleno"),
  ("Your wallpaper has reached its maximum capacity. Complete or delete existing notes to add new ones.", "Tu fondo ha alcanzado su capacidad máxima. Completa o elimina notas existentes para añadir nuevas."),
  ("No notes yet", "Sin notas aún"),
  ("Add a note below to get started", "Añade una nota abajo para empezar"),
  ("Delete (%lld)", "Eliminar (%lld)"),
  ("Wallpaper Not Showing?", "¿El fondo no se muestra?"),
  ("We can help you fix it in just a few steps.", "Podemos ayudarte a solucionarlo en pocos pasos."),
  ("Get Help", "Obtener ayuda"),
  ("Friendly Reminder", "Recordatorio amistoso"),
  ("Your free trial subscription will be ending soon.", "Tu período de prueba gratuito terminará pronto."),
  ("Great! You added your first note", "¡Genial! Añadiste tu primera nota"),
  ("Add more notes using the + button, then tap \"Update Wallpaper\" to apply them to your lock screen.", "Añade más notas usando el botón + y luego toca \"Actualizar fondo\" para aplicarlas a tu pantalla de bloqueo."),
  ("Deleting notes...", "Eliminando notas..."),
  ("Notes Deleted!", "¡Notas eliminadas!"),
  ("sec", "seg"),
  ("Device Category:", "Categoría del dispositivo:"),
  ("Screen:", "Pantalla:"),
  ("Scale Factor:", "Factor de escala:"),
  ("Is Compact:", "Es compacto:"),
  ("Max Video Height:", "Altura máx. de video:"),
  ("Before You Go...", "Antes de irte..."),
  ("Hey! I built NoteWall myself and I'm genuinely trying to make it better every day.", "¡Hola! Construí NoteWall yo mismo y realmente intento mejorarlo cada día."),
  ("If something didn't work or felt off, I really want to know. Your feedback directly shapes what I fix next.", "Si algo no funcionó o se sintió extraño, realmente quiero saberlo. Tu opinión determina directamente lo que arreglo después."),
  ("What could be better?", "¿Qué podría ser mejor?"),
  ("Tell me what went wrong...", "Cuéntame qué salió mal..."),
  ("Send Feedback", "Enviar opinión"),
  ("Maybe Later", "Quizás más tarde"),
  ("Thanks for Your Feedback!", "¡Gracias por tu opinión!"),
  ("I'll read this personally and work on making NoteWall better.", "Leeré esto personalmente y trabajaré en mejorar NoteWall."),
  ("Privacy Policy", "Política de privacidad"),
  ("Terms of Service", "Términos de servicio"),
  ("End User License Agreement", "Acuerdo de licencia de usuario final"),
  ("Unlock Full Access", "Desbloquear acceso completo"),
  ("Get Premium", "Obtener Premium"),
  ("Restore Purchase", "Restaurar compra"),
  ("Already subscribed?", "¿Ya estás suscrito?"),
  ("Unlimited wallpaper updates", "Actualizaciones ilimitadas de fondos"),
  ("Custom fonts & styles", "Fuentes y estilos personalizados"),
  ("Priority support", "Soporte prioritario"),
  ("No ads, ever", "Sin anuncios, nunca"),
  ("Start Free Trial", "Iniciar prueba gratuita"),
  ("Subscribe", "Suscribirse"),
  ("Lifetime Access", "Acceso de por vida"),
  ("Monthly", "Mensual"),
  ("Yearly", "Anual"),
  ("Settings", "Ajustes"),
  ("Wallpaper Settings", "Ajustes de fondo"),
  ("Text Style", "Estilo de texto"),
  ("Help & Support", "Ayuda y soporte"),
  ("About", "Acerca de"),
  ("Version", "Versión"),
  ("Build", "Compilación"),
  ("Share NoteWall", "Compartir NoteWall"),
  ("Rate Us", "Califícanos"),
  ("Send us Feedback", "Enviar opinión"),
  ("Welcome to NoteWall", "Bienvenido a NoteWall"),
  ("Never forget what matters", "Nunca olvides lo que importa"),
  ("Your notes, always visible", "Tus notas, siempre visibles"),
  ("Let's get started", "Empecemos"),
  ("What's your name?", "¿Cómo te llamas?"),
  ("Enter your name", "Ingresa tu nombre"),
  ("Skip this step", "Omitir este paso"),
  ("Grant Permissions First", "Primero concede los permisos"),
  ("Permissions granted!", "¡Permisos concedidos!"),
  ("Allow ALL Permissions", "Permitir TODOS los permisos"),
  ("Permission popups appear here", "Los permisos aparecen aquí"),
  ("click ALLOW for all", "toca PERMITIR en todos"),
  ("(this is how it should look)", "(así debería verse)"),
  ("Start Using NoteWall", "Empezar a usar NoteWall"),
  ("We Owe You an Apology", "Te debemos una disculpa"),
  ("You might have experienced a bug that prevented your wallpaper from updating. That's on us — let's get you back on track.", "Puede que hayas experimentado un error que impidió actualizar tu fondo. Eso es culpa nuestra — pongámoslo en orden."),
  ("What Happened?", "¿Qué pasó?"),
  ("The Issue", "El problema"),
  ("A technical bug prevented wallpapers from updating correctly for some users.", "Un error técnico impidió que los fondos se actualizaran correctamente para algunos usuarios."),
  ("Your Notes Are Safe", "Tus notas están seguras"),
  ("All your notes and data are perfectly intact.", "Todas tus notas y datos están perfectamente intactos."),
  ("The Fix", "La solución"),
  ("We've completely rebuilt the system. It now works faster and more reliably.", "Hemos reconstruido completamente el sistema. Ahora funciona más rápido y de manera más confiable."),
  ("What You Need to Do", "Lo que necesitas hacer"),
  ("Quick 1-minute setup to install the new system.", "Configuración rápida de 1 minuto para instalar el nuevo sistema."),
  ("Let's Fix This Together", "Arreglemos esto juntos"),
  ("I'll Handle It Later", "Lo manejaré más tarde"),
  ("What's New", "Novedades"),
  ("New in this version", "Nuevo en esta versión"),
  ("Improvements and bug fixes", "Mejoras y correcciones de errores"),
  ("Got It", "Entendido"),
  ("Troubleshooting", "Solución de problemas"),
  ("Common Issues", "Problemas comunes"),
  ("Wallpaper not updating?", "¿El fondo no se actualiza?"),
  ("Try these steps:", "Prueba estos pasos:"),
  ("Restart your device", "Reinicia tu dispositivo"),
  ("Reinstall the shortcut", "Reinstala el atajo"),
  ("Check permissions", "Verifica los permisos"),
  ("Still having issues?", "¿Sigues teniendo problemas?"),
  ("Contact our support team", "Contacta a nuestro equipo de soporte"),
  ("Why are you canceling?", "¿Por qué estás cancelando?"),
  ("Your feedback helps us improve", "Tu opinión nos ayuda a mejorar"),
  ("Too expensive", "Demasiado caro"),
  ("Not using it enough", "No lo uso suficiente"),
  ("Technical issues", "Problemas técnicos"),
  ("Missing features", "Faltan características"),
  ("Other reason", "Otra razón"),
  ("Tell us more (optional)", "Cuéntanos más (opcional)"),
  ("Submit Feedback", "Enviar opinión"),
  ("Thank you for your feedback", "Gracias por tu opinión")
]

/-- The 'fr' entry of the TRANSLATIONS dictionary literal of localize_app.py,
transcribed verbatim in source order (the literal has no duplicate keys). -/
def TRANSLATIONS_fr : List (String × String) := [
  ("Continue", "Continuer"),
  ("Cancel", "Annuler"),
  ("Delete", "Supprimer"),
  ("Done", "Terminé"),
  ("Close", "Fermer"),
  ("OK", "OK"),
  ("Skip", "Passer"),
  ("Next", "Suivant"),
  ("Yes", "Oui"),
  ("No", "Non"),
  ("Send", "Envoyer"),
  ("Apply", "Appliquer"),
  ("Save", "Enregistrer"),
  ("Loading...", "Chargement..."),
  ("Sending...", "Envoi..."),
  ("Updating…", "Mise à jour..."),
  ("Generating...", "Génération..."),
  ("Saving…", "Enregistrement..."),
  ("Preview", "Aperçu"),
  ("Install", "Installer"),
  ("Error", "Erreur"),
  ("Success", "Succès"),
  ("Warning", "Avertissement"),
  ("Info", "Info"),
  ("Issues found:", "Problèmes trouvés:"),
  ("Contact Support", "Contacter le support"),
  ("Start Auto-Fix", "Démarrer la correction automatique"),
  ("Delete Previous Wallpaper?", "Supprimer le fond d'écran précédent?"),
  ("To avoid filling your Photos library, NoteWall can delete the previous wallpaper. If you continue, iOS will ask for permission to delete the photo.", "Pour éviter de remplir votre photothèque, NoteWall peut supprimer le fond d'écran précédent. Si vous continuez, iOS demandera la permission de supprimer la photo."),
  ("Delete Note?", "Supprimer la note?"),
  ("Are you sure you want to delete this note? This action cannot be undone.", "Êtes-vous sûr de vouloir supprimer cette note? Cette action ne peut pas être annulée."),
  ("Delete Selected Notes?", "Supprimer les notes sélectionnées?"),
  ("Are you sure you want to delete the selected notes? This action cannot be undone.", "Êtes-vous sûr de vouloir supprimer les notes sélectionnées? Cette action ne peut pas être annulée."),
  ("Wallpaper Full", "Fond d'écran plein"),
  ("Your wallpaper has reached its maximum capacity. Complete or delete existing notes to add new ones.", "Votre fond d'écran a atteint sa capacité maximale. Complétez ou supprimez les notes existantes pour en ajouter de nouvelles."),
  ("No notes yet", "Pas encore de notes"),
  ("Add a note below to get started", "Ajoutez une note ci-dessous pour commencer"),
  ("Delete (%lld)", "Supprimer (%lld)"),
  ("Wallpaper Not Showing?", "Le fond d'écran ne s'affiche pas?"),
  ("We can help you fix it in just a few steps.", "Nous pouvons vous aider à le corriger en quelques étapes."),
  ("Get Help", "Obtenir de l'aide"),
  ("Friendly Reminder", "Rappel amical"),
  ("Your free trial subscription will be ending soon.", "Votre période d'essai gratuite se terminera bientôt."),
  ("Great! You added your first note", "Génial! Vous avez ajouté votre première note"),
  ("Add more notes using the + button, then tap \"Update Wallpaper\" to apply them to your lock screen.", "Ajoutez plus de notes avec le bouton + puis appuyez sur \"Mettre à jour le fond d'écran\" pour les appliquer à votre écran de verrouillage."),
  ("Deleting notes...", "Suppression des notes..."),
  ("Notes Deleted!", "Notes supprimées!"),
  ("sec", "sec"),
  ("Device Category:", "Catégorie d'appareil:"),
  ("Screen:", "Écran:"),
  ("Scale Factor:", "Facteur d'échelle:"),
  ("Is Compact:", "Est compact:"),
  ("Max Video Height:", "Hauteur vidéo max:"),
  ("Before You Go...", "Avant de partir..."),
  ("Hey! I built NoteWall myself and I'm genuinely trying to make it better every day.", "Salut! J'ai créé NoteWall moi-même et j'essaie vraiment de l'améliorer chaque jour."),
  ("If something didn't work or felt off, I really want to know. Your feedback directly shapes what I fix next.", "Si quelque chose n'a pas fonctionné ou semblait bizarre, je veux vraiment le savoir. Vos commentaires déterminent directement ce que je corrige ensuite."),
  ("What could be better?", "Qu'est-ce qui pourrait être mieux?"),
  ("Tell me what went wrong...", "Dites-moi ce qui n'a pas marché..."),
  ("Send Feedback", "Envoyer des commentaires"),
  ("Maybe Later", "Peut-être plus tard"),
  ("Thanks for Your Feedback!", "Merci pour vos commentaires!"),
  ("I'll read this personally and work on making NoteWall better.", "Je lirai ceci personnellement et travaillerai à améliorer NoteWall."),
  ("Privacy Policy", "Politique de confidentialité"),
  ("Terms of Service", "Conditions d'utilisation"),
  ("End User License Agreement", "Accord de licence utilisateur final"),
  ("Unlock Full Access", "Débloquer l'accès complet"),
  ("Get Premium", "Obtenir Premium"),
  ("Restore Purchase", "Restaurer l'achat"),
  ("Already subscribed?", "Déjà abonné?"),
  ("Unlimited wallpaper updates", "Mises à jour illimitées de fond d'écran"),
  ("Custom fonts & styles", "Polices et styles personnalisés"),
  ("Priority support", "Support prioritaire"),
  ("No ads, ever", "Pas de publicité, jamais"),
  ("Start Free Trial", "Démarrer l'essai gratuit"),
  ("Subscribe", "S'abonner"),
  ("Lifetime Access", "Accès à vie"),
  ("Monthly", "Mensuel"),
  ("Yearly", "Annuel"),
  ("Settings", "Réglages"),
  ("Wallpaper Settings", "Paramètres du fond d'écran"),
  ("Text Style", "Style de texte"),
  ("Help & Support", "Aide et support"),
  ("About", "À propos"),
  ("Version", "Version"),
  ("Build", "Build"),
  ("Share NoteWall", "Partager NoteWall"),
  ("Rate Us", "Évaluez-nous"),
  ("Send us Feedback", "Envoyez-nous des commentaires"),
  ("Welcome to NoteWall", "Bienvenue sur NoteWall"),
  ("Never forget what matters", "N'oubliez jamais ce qui compte"),
  ("Your notes, always visible", "Vos notes, toujours visibles"),
  ("Let's get started", "Commençons"),
  ("What's your name?", "Quel est votre nom?"),
  ("Enter your name", "Entrez votre nom"),
  ("Skip this step", "Passer cette étape"),
  ("Grant Permissions First", "Accordez d'abord les autorisations"),
  ("Permissions granted!", "Autorisations accordées!"),
  ("Allow ALL Permissions", "Autoriser TOUTES les autorisations"),
  ("Permission popups appear here", "Les autorisations apparaissent ici"),
  ("click ALLOW for all", "appuyez sur AUTORISER pour tous"),
  ("(this is how it should look)", "(voici à quoi cela devrait ressembler)"),
  ("Start Using NoteWall", "Commencer à utiliser NoteWall"),
  ("We Owe You an Apology", "Nous vous devons des excuses"),
  ("You might have experienced a bug that prevented your wallpaper from updating. That's on us — let's get you back on track.", "Vous avez peut-être rencontré un bug qui a empêché la mise à jour de votre fond d'écran. C'est de notre faute — remettons les choses en ordre."),
  ("What Happened?", "Que s'est-il passé?"),
  ("The Issue", "Le problème"),
  ("A technical bug prevented wallpapers from updating correctly for some users.", "Un bug technique a empêché les fonds d'écran de se mettre à jour correctement pour certains utilisateurs."),
  ("Your Notes Are Safe", "Vos notes sont en sécurité"),
  ("All your notes and data are perfectly intact.", "Toutes vos notes et données sont parfaitement intactes."),
  ("The Fix", "La solution"),
  ("We've completely rebuilt the system. It now works faster and more reliably.", "Nous avons complètement reconstruit le système. Il fonctionne maintenant plus rapidement et de manière plus fiable."),
  ("What You Need to Do", "Ce que vous devez faire"),
  ("Quick 1-minute setup to install the new system.", "Configuration rapide d'1 minute pour installer le nouveau système."),
  ("Let's Fix This Together", "Réparons cela ensemble"),
  ("I'll Handle It Later", "Je m'en occuperai plus tard"),
  ("What's New", "Nouveautés"),
  ("New in this version", "Nouveau dans cette version"),
  ("Improvements and bug fixes", "Améliorations et corrections de bugs"),
  ("Got It", "Compris"),
  ("Troubleshooting", "Dépannage"),
  ("Common Issues", "Problèmes courants"),
  ("Wallpaper not updating?", "Le fond d'écran ne se met pas à jour?"),
  ("Try these steps:", "Essayez ces étapes:"),
  ("Restart your device", "Redémarrez votre appareil"),
  ("Reinstall the shortcut", "Réinstallez le raccourci"),
  ("Check permissions", "Vérifiez les autorisations"),
  ("Still having issues?", "Vous avez toujours des problèmes?"),
  ("Contact our support team", "Contactez notre équipe de support"),
  ("Why are you canceling?", "Pourquoi annulez-vous?"),
  ("Your feedback helps us improve", "Vos commentaires nous aident à nous améliorer"),
  ("Too expensive", "Trop cher"),
  ("Not using it enough", "Je ne l'utilise pas assez"),
  ("Technical issues", "Problèmes techniques"),
  ("Missing features", "Fonctionnalités manquantes"),
  ("Other reason", "Autre raison"),
  ("Tell us more (optional)", "Dites-nous en plus (optionnel)"),
  ("Submit Feedback", "Soumettre des commentaires"),
  ("Thank you for your feedback", "Merci pour vos commentaires")
]

/-- Blob used as the concrete success instance for the exit-code claim: its
resources build phase holds one removable asset line. -/
def miniRes : List Char :=
  chars "/* Begin PBXResourcesBuildPhase section */files = (\nA /* arrow.png in Resources */,\n);/* End PBXResourcesBuildPhase section */"

/-- The line of `blob0` that the group-children insertion destroys. -/
def lostLine0 : List Char :=
  chars "AAAAAAAAAAAAAAAAAAAAAAAA /* NoteWall */ = \x7bchildren = ();"

/-! ## Lemmas about the helper functions -/

theorem isPrefixOf_iff {l t : List Char} : l.isPrefixOf t = true ↔ l <+: t := by
  exact List.isPrefixOf_iff_prefix

theorem gapLit_le (c : Char → Bool) (lit : List Char) :
    ∀ s g, gapLit c lit s = some g → g + lit.length ≤ s.length := by
  intro s
  induction s with
  | nil =>
    intro g h
    simp only [gapLit] at h
    split at h
    · rename_i he
      cases h
      simp [List.isEmpty_iff] at he
      simp [he]
    · cases h
  | cons a s ih =>
    intro g h
    simp only [gapLit] at h
    split at h
    · rename_i hp
      cases h
      have := (isPrefixOf_iff.mp hp).length_le
      simpa using this
    · split at h
      · rename_i hc
        rcases Option.map_eq_some'.mp h with ⟨g', hg', rfl⟩
        have := ih g' hg'
        simp only [List.length_cons]
        omega
      · cases h

theorem gapLit_drop (c : Char → Bool) (lit : List Char) :
    ∀ s g, gapLit c lit s = some g → lit <+: s.drop g := by
  intro s
  induction s with
  | nil =>
    intro g h
    simp only [gapLit] at h
    split at h
    · rename_i he
      cases h
      simp [List.isEmpty_iff] at he
      simp [he]
    · cases h
  | cons a s ih =>
    intro g h
    simp only [gapLit] at h
    split at h
    · rename_i hp
      cases h
      simpa using isPrefixOf_iff.mp hp
    · split at h
      · rcases Option.map_eq_some'.mp h with ⟨g', hg', rfl⟩
        simpa using ih g' hg'
      · cases h

theorem findFirstPos_spec {α : Type} (f : List Char → Option α) :
    ∀ s p a, findFirstPos f s = some (p, a) → f (s.drop p) = some a ∧ p ≤ s.length := by
  intro s
  induction s with
  | nil =>
    intro p a h
    simp only [findFirstPos] at h
    rcases Option.map_eq_some'.mp h with ⟨a', ha', heq⟩
    cases heq
    exact ⟨ha', Nat.le_refl 0⟩
  | cons b s ih =>
    intro p a h
    simp only [findFirstPos] at h
    split at h
    · rename_i a' ha'
      cases h
      exact ⟨ha', by simp⟩
    · rcases Option.map_eq_some'.mp h with ⟨pa, hpa, heq⟩
      cases heq
      obtain ⟨h1, h2⟩ := ih pa.1 pa.2 hpa
      refine ⟨by simpa using h1, by simp; omega⟩

theorem findInsert_le (f : List Char → Option Nat)
    (H : ∀ t r, f t = some r → r ≤ t.length) :
    ∀ s j, findInsert f s = some j → j ≤ s.length := by
  intro s j h
  simp only [findInsert] at h
  rcases Option.map_eq_some'.mp h with ⟨pa, hpa, rfl⟩
  obtain ⟨h1, h2⟩ := findFirstPos_spec f s pa.1 pa.2 hpa
  have := H _ _ h1
  simp [List.length_drop] at this
  omega

theorem spliceAt_length (j : Nat) (e s : List Char) (h : j ≤ s.length) :
    (spliceAt j e s).length = s.length + e.length := by
  simp [spliceAt, List.length_append, List.length_take, List.length_drop]
  omega

theorem spliceAt_sublist (j : Nat) (e s : List Char) : s.Sublist (spliceAt j e s) := by
  conv_lhs => rw [← List.take_append_drop j s]
  unfold spliceAt
  rw [List.append_assoc]
  exact (List.sublist_append_right e (s.drop j)).append_left (s.take j)

theorem spliceAt_boundary (u e r : List Char) : spliceAt u.length e (u ++ r) = u ++ e ++ r := by
  simp [spliceAt, List.take_left, List.drop_left]

theorem splitLines_ne_nil : ∀ s : List Char, splitLines s ≠ [] := by
  intro s
  induction s with
  | nil => simp [splitLines]
  | cons a s ih =>
    simp only [splitLines]
    split
    · simp
    · split
      · simp
      · simp

theorem mem_splitLines_no_newline : ∀ (s : List Char), ∀ l ∈ splitLines s, '\n' ∉ l := by
  intro s
  induction s with
  | nil =>
    intro l hl
    simp [splitLines] at hl
    simp [hl]
  | cons a s ih =>
    intro l hl
    simp only [splitLines] at hl
    split at hl
    · rcases List.mem_cons.mp hl with h | h
      · simp [h]
      · exact ih l h
    · rename_i ha
      rcases hsp : splitLines s with _ | ⟨m, ms⟩
      · exact absurd hsp (splitLines_ne_nil s)
      · rw [hsp] at hl
        rcases List.mem_cons.mp hl with h | h
        · subst h
          intro hmem
          rcases List.mem_cons.mp hmem with h' | h'
          · exact ha h'.symm
          · exact ih m (by rw [hsp]; exact List.mem_cons_self m ms) h'
        · exact ih l (by rw [hsp]; exact List.mem_cons_of_mem m h)

theorem splitLines_no_newline (l : List Char) (h : '\n' ∉ l) : splitLines l = [l] := by
  induction l with
  | nil => simp [splitLines]
  | cons a s ih =>
    simp only [splitLines]
    rw [if_neg (by intro he; exact h (by simp [he]))]
    rw [ih (by intro hm; exact h (List.mem_cons_of_mem a hm))]

theorem splitLines_append_newline (l r : List Char) (h : '\n' ∉ l) :
    splitLines (l ++ '\n' :: r) = l :: splitLines r := by
  induction l with
  | nil => simp [splitLines]
  | cons a s ih =>
    simp only [List.cons_append, splitLines, List.append_eq]
    rw [if_neg (by intro he; exact h (by simp [he]))]
    rw [ih (by intro hm; exact h (List.mem_cons_of_mem a hm))]

theorem splitLines_joinLines :
    ∀ ls : List (List Char), (∀ l ∈ ls, '\n' ∉ l) → ls ≠ [] →
      splitLines (joinLines ls) = ls := by
  intro ls
  induction ls with
  | nil => intro _ h; exact absurd rfl h
  | cons l ls ih =>
    intro hnl _
    rcases ls with _ | ⟨m, ms⟩
    · simpa [joinLines] using splitLines_no_newline l (hnl l (by simp))
    · show splitLines (l ++ '\n' :: joinLines (m :: ms)) = l :: m :: ms
      rw [splitLines_append_newline l _ (hnl l (by simp))]
      rw [ih (fun x hx => hnl x (List.mem_cons_of_mem l hx)) (by simp)]

theorem sectionAt_le (o cl : List Char) : ∀ t r, sectionAt o cl t = some r → r ≤ t.length := by
  intro t r h
  simp only [sectionAt] at h
  split at h
  · rename_i hp
    rcases Option.map_eq_some'.mp h with ⟨g, hg, rfl⟩
    have h1 := gapLit_le anyChar cl _ g hg
    have h2 := (isPrefixOf_iff.mp hp).length_le
    simp only [List.length_drop] at h1
    omega
  · cases h

theorem groupAt_le : ∀ t r, groupAt t = some r → r ≤ t.length := by
  intro t r h
  simp only [groupAt] at h
  split at h
  · rename_i hcond
    simp only [Bool.and_eq_true, decide_eq_true_eq] at hcond
    obtain ⟨⟨h24, _⟩, hnw⟩ := hcond
    have h24' : 24 ≤ t.length := by
      rw [List.length_take] at h24
      omega
    have hnwl := (isPrefixOf_iff.mp hnw).length_le
    simp only [List.length_drop] at hnwl
    split at h
    · cases h
    · rename_i g1 hg1
      rcases Option.map_eq_some'.mp h with ⟨g2, hg2, rfl⟩
      have b1 := gapLit_le nonBrace childrenLit _ g1 hg1
      have b2 := gapLit_le anyChar parenSemi _ g2 hg2
      simp only [List.length_drop] at b1 b2
      omega
  · cases h

theorem sourcesAt_le : ∀ t r, sourcesAt t = some r → r ≤ t.length := by
  intro t r h
  simp only [sourcesAt] at h
  split at h
  · rename_i hp
    have hpl := (isPrefixOf_iff.mp hp).length_le
    split at h
    · cases h
    · rename_i g1 hg1
      rcases Option.map_eq_some'.mp h with ⟨g2, hg2, rfl⟩
      have b1 := gapLit_le nonBrace filesLit _ g1 hg1
      have b2 := gapLit_le anyChar sourcesClose _ g2 hg2
      simp only [List.length_drop] at b1 b2
      omega
  · cases h

theorem splice_step_spec (f : List Char → Option Nat)
    (H : ∀ t r, f t = some r → r ≤ t.length) (e content c : List Char)
    (h : (findInsert f content).map (fun j => spliceAt j e content) = some c) :
    content.Sublist c ∧ c.length = content.length + e.length := by
  rcases Option.map_eq_some'.mp h with ⟨j, hj, rfl⟩
  have hle := findInsert_le f H content j hj
  exact ⟨spliceAt_sublist j e content, spliceAt_length j e content hle⟩

theorem fileRefEntry_pos (fid name : List Char) : 0 < (fileRefEntry fid name).length := by
  have h2 : (chars "\t\t").length = 2 := rfl
  simp only [fileRefEntry, List.length_append, h2]
  omega

/-- When the patch succeeds, the output is the input with the four entries
inserted: nothing is removed (sublist) and the length grows by exactly the
four entries' lengths. -/
theorem addFile_some_parts (fid bid name content out : List Char)
    (h : add_file_to_xcode_project fid bid name content = some out) :
    content.Sublist out ∧
      out.length = content.length + (fileRefEntry fid name).length +
        (buildFileEntry bid fid name).length + (childrenEntry fid name).length +
        (sourcesEntry bid name).length := by
  simp only [add_file_to_xcode_project] at h
  rcases Option.bind_eq_some.mp h with ⟨c1, h1, h'⟩
  rcases Option.bind_eq_some.mp h' with ⟨c2, h2, h''⟩
  rcases Option.bind_eq_some.mp h'' with ⟨c3, h3, h4⟩
  simp only [step1] at h1
  simp only [step2] at h2
  simp only [step3] at h3
  simp only [step4] at h4
  have s1 := splice_step_spec _ (sectionAt_le fileRefOpen fileRefClose) _ _ _ h1
  have s2 := splice_step_spec _ (sectionAt_le buildFileOpen buildFileClose) _ _ _ h2
  have s3 := splice_step_spec _ groupAt_le _ _ _ h3
  have s4 := splice_step_spec _ sourcesAt_le _ _ _ h4
  refine ⟨((s1.1.trans s2.1).trans s3.1).trans s4.1, ?_⟩
  rw [s4.2, s3.2, s2.2, s1.2]

theorem take_of_prefix {l t : List Char} (h : l <+: t) : t.take l.length = l := by
  obtain ⟨u, rfl⟩ := h
  exact List.take_left l u

theorem drop_drop_eq (t : List Char) (m n : Nat) : (t.drop m).drop n = t.drop (m + n) := by
  rw [List.drop_drop, Nat.add_comm]

theorem take_add3 (t : List Char) (a b c : Nat) :
    t.take (a + b + c) = t.take a ++ (t.drop a).take b ++ (t.drop (a + b)).take c := by
  rw [List.take_add, List.take_add]

/-- Take across a region of shape `x ++ gap ++ z`: the prefix `x`, a `c0`-long
gap, then the literal `z` sitting at offset `x.length + c0`. -/
theorem take_three_of_prefixes (t x z : List Char) (c0 : Nat)
    (hx : x <+: t) (hz : z <+: t.drop (x.length + c0)) :
    t.take (x.length + c0 + z.length) = x ++ (t.drop x.length).take c0 ++ z := by
  rw [take_add3]
  congr 1
  · congr 1
    exact take_of_prefix hx
  · exact take_of_prefix hz

theorem decomp4 (t : List Char) (g3s g3e mEnd : Nat) (h1 : g3s ≤ g3e) (h2 : g3e ≤ mEnd) :
    t = t.take g3s ++ (t.drop g3s).take (g3e - g3s) ++
        (t.drop g3e).take (mEnd - g3e) ++ t.drop mEnd := by
  have e1 : (t.drop g3s).drop (g3e - g3s) = t.drop g3e := by
    rw [drop_drop_eq]
    congr 1
    omega
  have e2 : (t.drop g3e).drop (mEnd - g3e) = t.drop mEnd := by
    rw [drop_drop_eq]
    congr 1
    omega
  have s2 : t.drop g3e = (t.drop g3e).take (mEnd - g3e) ++ t.drop mEnd := by
    conv_lhs => rw [← List.take_append_drop (mEnd - g3e) (t.drop g3e)]
    rw [e2]
  have s1 : t.drop g3s = (t.drop g3s).take (g3e - g3s) ++
      ((t.drop g3e).take (mEnd - g3e) ++ t.drop mEnd) := by
    conv_lhs => rw [← List.take_append_drop (g3e - g3s) (t.drop g3s)]
    rw [e1, ← s2]
  conv_lhs => rw [← List.take_append_drop g3s t, s1]
  simp [List.append_assoc]

theorem resourcesAt_parts (t : List Char) (g3s g3e mEnd : Nat)
    (h : resourcesAt t = some (g3s, g3e, mEnd)) :
    g3s ≤ g3e ∧ g3e ≤ mEnd ∧ mEnd ≤ t.length ∧
      (∃ g1, t.take g3s = resBegin ++ g1 ++ filesLit) ∧
      (∃ g5, (t.drop g3e).take (mEnd - g3e) = parenSemi ++ g5 ++ resEnd) := by
  simp only [resourcesAt] at h
  split at h
  case isFalse => cases h
  case isTrue hp =>
  split at h
  case h_1 => cases h
  case h_2 a ha =>
  split at h
  case h_1 => cases h
  case h_2 b hb =>
  rcases Option.map_eq_some'.mp h with ⟨c0, hc, heq⟩
  injection heq with heq1 heq2
  injection heq2 with heq2 heq3
  subst heq1
  subst heq2
  subst heq3
  have hpp : resBegin <+: t := isPrefixOf_iff.mp hp
  have hrb : t.length ≥ resBegin.length := hpp.length_le
  have la := gapLit_le anyChar filesLit _ a ha
  have lb := gapLit_le anyChar parenSemi _ b hb
  have lc := gapLit_le anyChar resEnd _ c0 hc
  simp only [List.length_drop] at la lb lc
  have da := gapLit_drop anyChar filesLit _ a ha
  have db := gapLit_drop anyChar parenSemi _ b hb
  have dc := gapLit_drop anyChar resEnd _ c0 hc
  rw [drop_drop_eq] at da db dc
  refine ⟨by omega, by omega, by omega, ?_, ?_⟩
  · exact ⟨(t.drop resBegin.length).take a, take_three_of_prefixes t resBegin filesLit a hpp da⟩
  · have hme : resBegin.length + a + filesLit.length + b + parenSemi.length + c0 + resEnd.length -
        (resBegin.length + a + filesLit.length + b) = parenSemi.length + c0 + resEnd.length := by
      omega
    have hz : resEnd <+:
        (t.drop (resBegin.length + a + filesLit.length + b)).drop (parenSemi.length + c0) := by
      rw [drop_drop_eq]
      have he : resBegin.length + a + filesLit.length + b + (parenSemi.length + c0) =
          resBegin.length + a + filesLit.length + b + parenSemi.length + c0 := by omega
      rw [he]
      exact dc
    rw [hme]
    exact ⟨_, take_three_of_prefixes _ parenSemi resEnd c0 db hz⟩

theorem spliceAt_boundary' (u e r : List Char) (j : Nat) (hj : j = u.length) :
    spliceAt j e (u ++ r) = u ++ e ++ r := by
  rw [hj]
  exact spliceAt_boundary u e r

theorem lookupA_mem : ∀ (l : List (String × String)) (k v : String),
    lookupA l k = some v → (k, v) ∈ l := by
  intro l
  induction l with
  | nil => intro k v h; cases h
  | cons kv t ih =>
    intro k v h
    simp only [lookupA] at h
    split at h
    · rename_i he
      injection h with h2
      subst he
      subst h2
      simp
    · exact List.mem_cons_of_mem kv (ih k v h)

theorem table_values_ne_empty (T : List (String × String))
    (hall : T.all (fun p => !(p.2 == "")) = true) :
    ∀ k v, lookupA T k = some v → ¬v = "" := by
  intro k v h hv
  have hm := lookupA_mem T k v h
  have h2 := List.all_eq_true.mp hall _ hm
  simp only [Bool.not_eq_true', beq_eq_false_iff_ne, ne_eq] at h2
  exact h2 hv

theorem lookupA_map_self (f : String → String) :
    ∀ (keys : List String) (k : String), k ∈ keys →
      lookupA (keys.map (fun x => (x, f x))) k = some (f k) := by
  intro keys
  induction keys with
  | nil => intro k h; cases h
  | cons a t ih =>
    intro k h
    simp only [List.map_cons, lookupA]
    split
    · rename_i he
      rw [show a = k from he]
    · rename_i he
      apply ih
      rcases List.mem_cons.mp h with h1 | h1
      · exact absurd h1.symm he
      · exact h1

/-! ## The claims -/

/-- Claim C1: when any one of the four section/group patterns fails to match
(at its turn, on the blob as mutated so far), the patch run returns failure
and the manifest on disk is unchanged.  The equivalence characterises exactly
when the run fails; the final conjuncts instantiate the failure on the empty
blob (the first pattern has no match there). -/
theorem C1_patch_aborts_without_write (writeOk : Bool) (fid bid name content : List Char) :
    (add_file_to_xcode_project fid bid name content = none ↔
      step1 fid name content = none ∨
      (∃ c1, step1 fid name content = some c1 ∧ step2 bid fid name c1 = none) ∨
      (∃ c1 c2, step1 fid name content = some c1 ∧ step2 bid fid name c1 = some c2 ∧
        step3 fid name c2 = none) ∨
      (∃ c1 c2 c3, step1 fid name content = some c1 ∧ step2 bid fid name c1 = some c2 ∧
        step3 fid name c2 = some c3 ∧ step4 bid name c3 = none)) ∧
    (add_file_to_xcode_project fid bid name content = none →
      runAddFile writeOk fid bid name content = (false, content)) ∧
    add_file_to_xcode_project fid0 bid0 name0 [] = none ∧
    runAddFile true fid0 bid0 name0 [] = (false, []) := by
  refine ⟨?_, ?_, by decide, by decide⟩
  · cases h1 : step1 fid name content with
    | none => simp [add_file_to_xcode_project, h1]
    | some c1 =>
      cases h2 : step2 bid fid name c1 with
      | none => simp [add_file_to_xcode_project, h1, h2]
      | some c2 =>
        cases h3 : step3 fid name c2 with
        | none => simp [add_file_to_xcode_project, h1, h2, h3]
        | some c3 =>
          cases h4 : step4 bid name c3 with
          | none => simp [add_file_to_xcode_project, h1, h2, h3, h4]
          | some c4 => simp [add_file_to_xcode_project, h1, h2, h3, h4]
  · intro h
    simp [runAddFile, h]

/-- Claim C2, counterexample: a blob on which all four patterns match but
whose set of lines is not preserved — the line holding the group-children
list is split by the insertion, so it is absent from the output's lines. -/
theorem C2_counterexample :
    add_file_to_xcode_project fid0 bid0 name0 blob0 = some addOut0expected ∧
    lostLine0 ∈ splitLines blob0 ∧ lostLine0 ∉ splitLines addOut0expected := by
  refine ⟨by decide, by decide, by decide⟩

/-- Claim C2, amended: one successful run inserts exactly the four entry
strings and neither alters nor removes any character of the input — the
input is an order-preserving subsequence of the output and the length grows
by exactly the four entries' combined length (so the output is strictly
larger).  The line-level form of the claim fails (see the counterexample). -/
theorem C2_insertion_preserves_input (fid bid name content out : List Char)
    (h : add_file_to_xcode_project fid bid name content = some out) :
    content.Sublist out ∧
      out.length = content.length + (fileRefEntry fid name).length +
        (buildFileEntry bid fid name).length + (childrenEntry fid name).length +
        (sourcesEntry bid name).length ∧
      content ≠ out := by
  obtain ⟨hsub, hlen⟩ := addFile_some_parts fid bid name content out h
  refine ⟨hsub, hlen, ?_⟩
  intro he
  have hpos := fileRefEntry_pos fid name
  rw [← he] at hlen
  omega

theorem C2_insertion_preserves_input_witness :
    blob0.Sublist addOut0expected ∧
      addOut0expected.length = blob0.length + (fileRefEntry fid0 name0).length +
        (buildFileEntry bid0 fid0 name0).length + (childrenEntry fid0 name0).length +
        (sourcesEntry bid0 name0).length ∧
      blob0 ≠ addOut0expected :=
  C2_insertion_preserves_input fid0 bid0 name0 blob0 addOut0expected (by decide)

/-- Claim C3, counterexample: the fix pass is not idempotent.  On `blob3` the
first run deletes the `arrow.png` membership line; the deletion juxtaposes
`XYZ` with the following `Contents.json … PBXBuildFile;` text, so the second
run's harvest matches the build-file pattern and collects `XYZ`, and the
second run deletes one more line: the output changes again. -/
theorem C3_counterexample :
    fixBlob blob3 = fixOut3expected ∧ fixBlob fixOut3expected ≠ fixOut3expected := by
  refine ⟨by decide, by decide⟩

/-- Claim C3, amended: the per-list removal step itself is idempotent — for a
fixed identifier set, filtering the lines of an already-filtered files list
removes nothing.  The full pass re-harvests identifiers from its own output,
and is not idempotent on every blob (see the counterexample). -/
theorem C3_remove_step_idempotent (ids : List (List Char)) (x : List Char) :
    remove_ids_from_files ids (remove_ids_from_files ids x) = remove_ids_from_files ids x := by
  by_cases hk : (splitLines x).filter (fun l => !shouldRemove ids l) = []
  · unfold remove_ids_from_files
    rw [hk]
    have hsr : shouldRemove ids [] = false := by
      have h1 : isSubstring inResourcesLit [] = false := rfl
      simp [shouldRemove, h1]
    simp [joinLines, splitLines, List.filter, hsr]
  · unfold remove_ids_from_files
    have hnl : ∀ l ∈ (splitLines x).filter (fun l => !shouldRemove ids l), '\n' ∉ l :=
      fun l hl => mem_splitLines_no_newline x l (List.mem_of_mem_filter hl)
    rw [splitLines_joinLines _ hnl hk]
    congr 1
    apply List.filter_eq_self.mpr
    intro a ha
    exact (List.mem_filter.mp ha).2

/-- Claim C4: on a manifest with empty file-reference and build-file sections
(markers adjacent up to a newline) plus the NoteWall group and sources phase,
adding Foo.swift succeeds; the output holds exactly one file-reference line
for Foo.swift with type sourcecode.swift (the entry built from fid0), exactly
one build-file line whose fileRef is that same identifier fid0 (the entry
built from bid0 and fid0), and the sources files list contains the bid0
entry (directly between `files = (` and the list terminator). -/
theorem C4_empty_sections_add_foo :
    add_file_to_xcode_project fid0 bid0 name0 blob4 = some addOut4expected ∧
    ((splitLines addOut4expected).filter
      (fun l => l = (fileRefEntry fid0 name0).dropLast)).length = 1 ∧
    ((splitLines addOut4expected).filter
      (fun l => l = (buildFileEntry bid0 fid0 name0).dropLast)).length = 1 ∧
    isSubstring (filesLit ++ sourcesEntry bid0 name0 ++ sourcesClose) addOut4expected = true := by
  refine ⟨by decide, by decide, by decide, by decide⟩

/-- Claim C5: every phrase present in a target-language table looks up to its
table value, which is never the empty string; a phrase absent from the table
falls back to the identical source phrase with the warning flag set and no
failing outcome (`resolveOne` is total).  `Cancel`/`de` gives `Abbrechen`;
`Frobnicate`/`de` gives `Frobnicate` with a warning. -/
theorem C5_translation_lookup :
    (∀ k v, lookupA TRANSLATIONS_de k = some v → ¬v = "") ∧
    (∀ k v, lookupA TRANSLATIONS_es k = some v → ¬v = "") ∧
    (∀ k v, lookupA TRANSLATIONS_fr k = some v → ¬v = "") ∧
    resolveOne [] TRANSLATIONS_de "Cancel" = ("Abbrechen", false) ∧
    resolveOne [] TRANSLATIONS_de "Frobnicate" = ("Frobnicate", true) :=
  ⟨table_values_ne_empty _ (by decide), table_values_ne_empty _ (by decide),
   table_values_ne_empty _ (by decide), by decide, by decide⟩

/-- Claim C6: the fix run overwrites iff the blob changed, and an unchanged
blob is reported as "no changes" (False), not success; the add run writes
exactly on its success path, where the blob always differs from the original
(four nonempty insertions), so it too overwrites exactly when the blob
changed.  The last conjunct instantiates the no-change outcome concretely. -/
theorem C6_writeback_iff_changed (content fid bid name : List Char) :
    ((fix_xcode_project content).1 = true ↔ (fix_xcode_project content).2 ≠ content) ∧
    ((fix_xcode_project content).1 = false → (fix_xcode_project content).2 = content) ∧
    (∀ out, add_file_to_xcode_project fid bid name content = some out →
      out ≠ content ∧ runAddFile true fid bid name content = (true, out)) ∧
    fix_xcode_project [] = (false, []) := by
  refine ⟨?_, ?_, ?_, by decide⟩
  · unfold fix_xcode_project
    by_cases h : fixBlob content = content
    · simp [h]
    · simp [h]
  · unfold fix_xcode_project
    by_cases h : fixBlob content = content
    · simp [h]
    · simp [h]
  · intro out hout
    obtain ⟨hsub, hlen⟩ := addFile_some_parts fid bid name content out hout
    have hpos := fileRefEntry_pos fid name
    refine ⟨?_, ?_⟩
    · intro he
      rw [he] at hlen
      omega
    · simp [runAddFile, hout]

/-- Claim C7, counterexample: a blob on which the patch succeeds in the
written order and also with steps 3 and 4 swapped, with different outputs —
the first files-list terminator after the sources phase is the group-children
terminator, so the two matched regions overlap and order matters. -/
theorem C7_counterexample :
    add_file_to_xcode_project fid0 bid0 name0 blob1 = some out1canonical ∧
    add_file_swapped34 fid0 bid0 name0 blob1 = some out1swapped ∧
    out1canonical ≠ out1swapped := by
  refine ⟨by decide, by decide, by decide⟩

/-- Claim C7, amended: what is true is commutation of the pure text splices —
inserting at position j1 and at a later position j2 gives the same blob in
either order (the later position shifted by the first entry's length).  The
four program steps re-locate their patterns in the mutated blob, and their
regions need not be disjoint, so the full patch is order-dependent (see the
counterexample). -/
theorem C7_splice_commutes (s e1 e2 : List Char) (j1 j2 : Nat)
    (h1 : j1 ≤ j2) (h2 : j2 ≤ s.length) :
    spliceAt j1 e1 (spliceAt j2 e2 s) = spliceAt (j2 + e1.length) e2 (spliceAt j1 e1 s) := by
  have hu : (s.take j1).length = j1 := by rw [List.length_take]; omega
  have hm : ((s.drop j1).take (j2 - j1)).length = j2 - j1 := by
    rw [List.length_take, List.length_drop]; omega
  have hdd : (s.drop j1).drop (j2 - j1) = s.drop j2 := by
    rw [drop_drop_eq]; congr 1; omega
  have hs : s = s.take j1 ++ ((s.drop j1).take (j2 - j1) ++ s.drop j2) := by
    conv_lhs => rw [← List.take_append_drop j1 s]
    congr 1
    conv_lhs => rw [← List.take_append_drop (j2 - j1) (s.drop j1)]
    rw [hdd]
  have e1step : spliceAt j1 e1 s =
      s.take j1 ++ e1 ++ ((s.drop j1).take (j2 - j1) ++ s.drop j2) := by
    conv_lhs => rw [hs]
    exact spliceAt_boundary' _ e1 _ j1 hu.symm
  have e2step : spliceAt j2 e2 s =
      (s.take j1 ++ (s.drop j1).take (j2 - j1)) ++ e2 ++ s.drop j2 := by
    conv_lhs => rw [hs]
    rw [← List.append_assoc]
    exact spliceAt_boundary' _ e2 _ j2 (by rw [List.length_append, hu, hm]; omega)
  have lhs_eq : spliceAt j1 e1 (spliceAt j2 e2 s) =
      s.take j1 ++ e1 ++ ((s.drop j1).take (j2 - j1) ++ (e2 ++ s.drop j2)) := by
    rw [e2step]
    rw [List.append_assoc, List.append_assoc]
    exact spliceAt_boundary' _ e1 _ j1 hu.symm
  have rhs_eq : spliceAt (j2 + e1.length) e2 (spliceAt j1 e1 s) =
      (s.take j1 ++ e1 ++ (s.drop j1).take (j2 - j1)) ++ e2 ++ s.drop j2 := by
    rw [e1step]
    rw [show s.take j1 ++ e1 ++ ((s.drop j1).take (j2 - j1) ++ s.drop j2) =
        (s.take j1 ++ e1 ++ (s.drop j1).take (j2 - j1)) ++ s.drop j2 by
      simp [List.append_assoc]]
    exact spliceAt_boundary' _ e2 _ (j2 + e1.length)
      (by simp only [List.length_append, hu, hm]; omega)
  rw [lhs_eq, rhs_eq]
  simp [List.append_assoc]

theorem C7_splice_commutes_witness :
    spliceAt 1 (chars "X") (spliceAt 2 (chars "Y") (chars "abc")) =
      spliceAt (2 + (chars "X").length) (chars "Y") (spliceAt 1 (chars "X") (chars "abc")) :=
  C7_splice_commutes (chars "abc") (chars "X") (chars "Y") 1 2 (by decide) (by decide)

/-- Claim C8: the add script exits 0 iff the four patterns matched and the
write succeeded, and 1 on any failure (missing section or write error); the
fix script exits 0 iff the pass changed the blob and the write succeeded, and
1 otherwise ("no changes" is `sys.exit(1)`; a write failure is an uncaught
exception, exit code 1).  The last conjuncts instantiate both outcomes. -/
theorem C8_exit_codes (writeOk : Bool) (fid bid name disk content : List Char) :
    (addFileExitCode writeOk fid bid name disk = 0 ↔
      (add_file_to_xcode_project fid bid name disk).isSome = true ∧ writeOk = true) ∧
    (addFileExitCode writeOk fid bid name disk = 1 ↔
      add_file_to_xcode_project fid bid name disk = none ∨ writeOk = false) ∧
    (fixExitCode writeOk content = 0 ↔
      (fix_xcode_project content).1 = true ∧ writeOk = true) ∧
    (fixExitCode writeOk content = 1 ↔
      (fix_xcode_project content).1 = false ∨ writeOk = false) ∧
    addFileExitCode true fid0 bid0 name0 [] = 1 ∧
    fixExitCode true miniRes = 0 := by
  refine ⟨?_, ?_, ?_, ?_, by decide, by decide⟩
  · unfold addFileExitCode runAddFile
    cases h : add_file_to_xcode_project fid bid name disk <;> cases writeOk <;> simp [h]
  · unfold addFileExitCode runAddFile
    cases h : add_file_to_xcode_project fid bid name disk <;> cases writeOk <;> simp [h]
  · unfold fixExitCode
    cases h : (fix_xcode_project content).1 <;> cases writeOk <;> simp [h]
  · unfold fixExitCode
    cases h : (fix_xcode_project content).1 <;> cases writeOk <;> simp [h]

/-- Claim C9 (frame property of the fix pass): one unfolding of the
substitution either leaves the blob untouched (no match of the
resources-section pattern anywhere) or splits the blob as
`prefix ++ A ++ G ++ B ++ rest`, where A starts with the Begin marker and
ends with `files = (`, B starts with `);` and ends with the End marker, the
prefix, A and B are reproduced verbatim (and the rest is processed by the
same substitution recursively), and only G — the files list — is rewritten:
it becomes the newline-join of a subsequence of its own lines, every dropped
line containing a harvested identifier together with `in Resources`.  In
particular every character outside the Begin–End spans, including the
PBXBuildFile definition entries, is identical in input and output. -/
theorem C9_fix_frame (ids : List (List Char)) (fuel : Nat) (s : List Char) :
    (findFirstPos resourcesAt s = none ∧ fixSub ids (fuel + 1) s = s) ∨
    (∃ p g3s g3e mEnd,
      findFirstPos resourcesAt s = some (p, g3s, g3e, mEnd) ∧
      s = s.take p ++ ((s.drop p).take g3s) ++ (((s.drop p).drop g3s).take (g3e - g3s)) ++
          (((s.drop p).drop g3e).take (mEnd - g3e)) ++ ((s.drop p).drop mEnd) ∧
      fixSub ids (fuel + 1) s =
        s.take p ++ ((s.drop p).take g3s) ++
          remove_ids_from_files ids (((s.drop p).drop g3s).take (g3e - g3s)) ++
          (((s.drop p).drop g3e).take (mEnd - g3e)) ++
          fixSub ids fuel ((s.drop p).drop mEnd) ∧
      (∃ g1, (s.drop p).take g3s = resBegin ++ g1 ++ filesLit) ∧
      (∃ g5, ((s.drop p).drop g3e).take (mEnd - g3e) = parenSemi ++ g5 ++ resEnd) ∧
      (∃ kept, kept.Sublist (splitLines (((s.drop p).drop g3s).take (g3e - g3s))) ∧
        remove_ids_from_files ids (((s.drop p).drop g3s).take (g3e - g3s)) = joinLines kept ∧
        (∀ l ∈ kept, shouldRemove ids l = false) ∧
        (∀ l ∈ splitLines (((s.drop p).drop g3s).take (g3e - g3s)),
          l ∉ kept → shouldRemove ids l = true))) := by
  cases hfp : findFirstPos resourcesAt s with
  | none =>
    left
    exact ⟨rfl, by simp [fixSub, hfp]⟩
  | some pm =>
    right
    obtain ⟨p, g3s, g3e, mEnd⟩ := pm
    obtain ⟨hres, hple⟩ := findFirstPos_spec resourcesAt s p (g3s, g3e, mEnd) hfp
    obtain ⟨h12, h23, hlen, hA, hB⟩ := resourcesAt_parts _ g3s g3e mEnd hres
    refine ⟨p, g3s, g3e, mEnd, rfl, ?_, ?_, hA, hB, ?_⟩
    · have hdec := decomp4 (s.drop p) g3s g3e mEnd h12 h23
      calc s = s.take p ++ s.drop p := (List.take_append_drop p s).symm
        _ = s.take p ++ ((s.drop p).take g3s ++ (((s.drop p).drop g3s).take (g3e - g3s)) ++
            (((s.drop p).drop g3e).take (mEnd - g3e)) ++ ((s.drop p).drop mEnd)) := by
          rw [← hdec]
        _ = s.take p ++ ((s.drop p).take g3s) ++ (((s.drop p).drop g3s).take (g3e - g3s)) ++
            (((s.drop p).drop g3e).take (mEnd - g3e)) ++ ((s.drop p).drop mEnd) := by
          simp [List.append_assoc]
    · simp [fixSub, hfp]
    · refine ⟨(splitLines (((s.drop p).drop g3s).take (g3e - g3s))).filter
        (fun l => !shouldRemove ids l), List.filter_sublist _, rfl, ?_, ?_⟩
      · intro l hl
        have h2 := (List.mem_filter.mp hl).2
        simpa using h2
      · intro l hls hnk
        by_contra hsr
        apply hnk
        exact List.mem_filter.mpr ⟨hls, by simp [Bool.not_eq_true] at hsr; simp [hsr]⟩

/-- Claim C10: in the translation loop, a translation persisted in the
language's Localizable.strings (as parsed by `read_existing_translations`)
takes precedence over the hardcoded table, which takes precedence over the
English fallback; re-running never replaces a persisted translation with a
dictionary value.  The final conjunct instantiates this: the persisted
`Abgebrochen` wins over the table's `Abbrechen`. -/
theorem C10_persisted_precedence (enKeys : List String) (content : String)
    (table : List (String × String)) (k v : String) :
    ((k ∈ enKeys) → lookupA (read_existing_translations content) k = some v →
      lookupA (buildLangTable enKeys (read_existing_translations content) table) k = some v) ∧
    ((k ∈ enKeys) → lookupA (read_existing_translations content) k = none →
      lookupA table k = some v →
      lookupA (buildLangTable enKeys (read_existing_translations content) table) k = some v) ∧
    buildLangTable ["Cancel"] (read_existing_translations "\"Cancel\" = \"Abgebrochen\";")
        TRANSLATIONS_de = [("Cancel", "Abgebrochen")] := by
  refine ⟨?_, ?_, by decide⟩
  · intro hk hv
    unfold buildLangTable
    rw [lookupA_map_self
      (fun x => (resolveOne (read_existing_translations content) table x).1) enKeys k hk]
    simp [resolveOne, hv]
  · intro hk hnone hv
    unfold buildLangTable
    rw [lookupA_map_self
      (fun x => (resolveOne (read_existing_translations content) table x).1) enKeys k hk]
    simp [resolveOne, hnone, hv]
